import Mathlib

/-!
# Verification of `fast_limiter` (src/rate_limiter.py)

A shallow embedding of the rate-limiting library: the fixed-window counter
(`InMemoryRateLimiter.check_rate_limit`), the Redis fixed-window counter
(`RedisRateLimiter.check_rate_limit`), the token bucket
(`TokenBucketRateLimiter.check_rate_limit`), the jittered wrapper
(`FixedWindowRateLimiter.check_rate_limit`), the two storage backends'
`get_data`/`set_data`, and the `rate_limit` decorator's wrapper.

Conventions of the embedding:
* `time.time()` timestamps are rationals (`ℚ`); `requests_limit` and
  `window_seconds` are integers (`ℤ`).
* Python `int(x)` truncation toward zero is `pyInt`.
* Python's dynamically typed stored values are the inductive `PyVal`; running
  arithmetic on a non-numeric value raises `TypeError`, and dividing by zero
  raises `ZeroDivisionError`; fallible code returns `Except PyErr`.
* Mutable state (a dict, a Redis database) is explicit: each `check_rate_limit`
  takes the state it reads and returns the state it leaves behind.  Dict /
  Redis key assignment is modelled by prepending to an association list whose
  lookup returns the newest binding, which gives the same `get` observations
  as in-place overwrite.
-/

namespace FastLimiter

/-- Python `int(x)` applied to a float: truncation toward zero
(`math.floor` for nonnegative `x`, `math.ceil` for negative `x`). -/
def pyInt (q : ℚ) : ℤ := if 0 ≤ q then q.floor else -((-q).floor)

/-- Dynamically-typed values that flow through the storage backends.
`num q` is a Python int/float of value `q`; `str q` is a string holding the
decimal representation of the number `q` (numbers round-trip through the
external string store as their decimal strings, so `float(...)` recovers the
number); `tuple v ttl` is the Python pair `(value, ttl)` that
`InMemoryRateLimiter.set_data` builds. -/
inductive PyVal : Type
  | num (q : ℚ)
  | str (q : ℚ)
  | tuple (v : PyVal) (ttl : Option ℤ)
deriving DecidableEq, Repr

/-- Python runtime errors the embedded code can raise. -/
inductive PyErr : Type
  | typeError
  | zeroDivision
deriving DecidableEq, Repr

deriving instance DecidableEq for Except

/-- Using a stored value as a number, as the token bucket does: ints/floats
are used as they are, strings go through `float(...)`; arithmetic on a tuple
raises `TypeError`. -/
def pyNum : PyVal → Except PyErr ℚ
  | .num q => .ok q
  | .str q => .ok q
  | .tuple _ _ => .error .typeError

/-- Python `a or b` for `a : Optional[float]`: `b` when `a` is `None` or the
number `0` (both falsy), otherwise `a`.  Models `self.bucket_capacity or
requests_limit` in `TokenBucketRateLimiter.check_rate_limit`. -/
def pyOr (a : Option ℚ) (b : ℚ) : ℚ :=
  match a with
  | none => b
  | some q => if q = 0 then b else q

/-! ## `InMemoryRateLimiter` (src/rate_limiter.py lines 48-78)

`check_rate_limit` touches only `self.request_records[identifier]`, a pair
`(requests_count, window_start)`; the embedding passes that single entry
(`none` when the identifier is unseen) and returns the updated entry.
`get_data`/`set_data` touch only `self.data_store`, a dict modelled as an
association list. -/

namespace InMemoryRateLimiter

/-- One call of `InMemoryRateLimiter.check_rate_limit` for one identifier:
returns `((is_allowed, retry_after), new record)`.  On the deny branch the
source writes nothing, so the record is returned unchanged. -/
def check_rate_limit (requests_limit window_seconds : ℤ)
    (record : Option (ℤ × ℚ)) (current_time : ℚ) : (Bool × ℤ) × (ℤ × ℚ) :=
  match record with
  | some (requests_count, window_start) =>
    if current_time - window_start > (window_seconds : ℚ) then
      ((true, 0), (1, current_time))
    else if requests_count ≥ requests_limit then
      ((false, pyInt (window_start + (window_seconds : ℚ) - current_time)),
        (requests_count, window_start))
    else
      ((true, 0), (requests_count + 1, window_start))
  | none => ((true, 0), (1, current_time))

/-- The dict `self.data_store`: keys map to whatever `set_data` put there. -/
abbrev DataStore : Type := List (String × PyVal)

/-- Method `get_data`: `return self.data_store.get(key)` — the newest binding of the
key, or `None`. -/
def get_data (s : DataStore) (key : String) : Option PyVal :=
  (s.find? (fun p => p.1 == key)).map (fun p => p.2)

/-- Method `set_data`: `self.data_store[key] = value, ttl` — the dict entry is the
PAIR `(value, ttl)`, not the value. -/
def set_data (s : DataStore) (key : String) (value : PyVal) (ttl : Option ℤ) :
    DataStore :=
  (key, PyVal.tuple value ttl) :: s

end InMemoryRateLimiter

/-! ## `RedisRateLimiter` (src/rate_limiter.py lines 80-135)

The Redis database is an association list of bindings `(key, value, ttl)`;
`pipe.expire` is TTL bookkeeping that no claim observes, so the fixed-window
embedding keeps only `(key, value)` bindings for the numeric counters. -/

namespace RedisRateLimiter

/-- Redis keyspace as seen by `check_rate_limit`: all values it stores and
reads back are numbers (counts and timestamps round-trip as their decimal
strings). -/
abbrev KVStore : Type := List (String × ℚ)

/-- Newest binding of a key, or `none` when the key is absent. -/
def kvGet (s : KVStore) (key : String) : Option ℚ :=
  (s.find? (fun p => p.1 == key)).map (fun p => p.2)

/-- Overwrite of one key, as `redis.set` does. -/
def kvSet (s : KVStore) (key : String) (value : ℚ) : KVStore :=
  (key, value) :: s

/-- One call of `RedisRateLimiter.check_rate_limit`: reads `key:count` and
`key:start`, then either resets, denies, or increments.  The stored byte
strings are nonempty whenever present, so `if count_bytes and start_bytes`
is "both keys present". -/
def check_rate_limit (prefix_ identifier : String)
    (requests_limit window_seconds : ℤ) (current_time : ℚ) (s : KVStore) :
    (Bool × ℤ) × KVStore :=
  let key := prefix_ ++ identifier
  match kvGet s (key ++ ":count"), kvGet s (key ++ ":start") with
  | some count, some start =>
    if current_time - start > (window_seconds : ℚ) then
      ((true, 0), kvSet (kvSet s (key ++ ":count") 1) (key ++ ":start") current_time)
    else if count ≥ (requests_limit : ℚ) then
      ((false, pyInt (start + (window_seconds : ℚ) - current_time)), s)
    else
      ((true, 0), kvSet s (key ++ ":count") (count + 1))
  | _, _ =>
    ((true, 0), kvSet (kvSet s (key ++ ":count") 1) (key ++ ":start") current_time)

/-- Redis values as a `PyVal` store for the `get_data`/`set_data` interface. -/
abbrev Database : Type := List (String × PyVal × Option ℤ)

/-- Method `get_data`: the body runs `self.redis.get(key)` but never returns it, so
the method returns `None` for every key and every database state. -/
def get_data (_s : Database) (_key : String) : Option PyVal := none

/-- Method `set_data`: `self.redis.setex(key, ttl, value) if ttl else
self.redis.set(key, value)`; a `ttl` of `None` or `0` is falsy and selects
the plain `set` (no expiry). -/
def set_data (s : Database) (key : String) (value : PyVal) (ttl : Option ℤ) :
    Database :=
  match ttl with
  | some t => if t = 0 then (key, value, none) :: s else (key, value, some t) :: s
  | none => (key, value, none) :: s

end RedisRateLimiter

/-! ## `TokenBucketRateLimiter` (src/rate_limiter.py lines 137-204)

`check_rate_limit` is generic in the storage backend it delegates
`get_data`/`set_data` to, exactly as the class wraps an arbitrary
`RateLimiter` for storage: the embedding abstracts the backend as a state
type `σ` with `get_data`/`set_data` functions. -/

namespace TokenBucketRateLimiter

/-- One call of `TokenBucketRateLimiter.check_rate_limit` over an abstract
storage backend.  Faithful to the source order: `refill_rate` first (a zero
`window_seconds` raises `ZeroDivisionError` there), then the two reads, the
missing-record initialization, the string coercions, the refill, and the
allow/deny branches.  On deny only `last_update` is written, and
`(1 - new_token_count) / refill_rate` raises `ZeroDivisionError` when
`refill_rate` is zero. -/
def check_rate_limit {σ : Type}
    (get_data : σ → String → Option PyVal)
    (set_data : σ → String → PyVal → Option ℤ → σ)
    (bucket_capacity : Option ℚ) (identifier : String)
    (requests_limit window_seconds : ℤ) (current_time : ℚ) (s : σ) :
    Except PyErr ((Bool × ℤ) × σ) :=
  if window_seconds = 0 then .error .zeroDivision else
  let refill_rate : ℚ := (requests_limit : ℚ) / (window_seconds : ℚ)
  let capacity : ℚ := pyOr bucket_capacity (requests_limit : ℚ)
  let bucket_key := "bucket:" ++ identifier
  let last_update_key := "last_update:" ++ identifier
  match get_data s bucket_key, get_data s last_update_key with
  | some tokens_val, some last_val => do
    let current_tokens ← pyNum tokens_val
    let last_update ← pyNum last_val
    let time_elapsed := current_time - last_update
    let tokens_to_add := time_elapsed * refill_rate
    let new_token_count := min (current_tokens + tokens_to_add) capacity
    if 1 ≤ new_token_count then
      let new_token_count := new_token_count - 1
      let s := set_data s bucket_key (.num new_token_count) (some (window_seconds * 2))
      let s := set_data s last_update_key (.num current_time) (some (window_seconds * 2))
      return ((true, 0), s)
    else if refill_rate = 0 then .error .zeroDivision
    else
      let time_until_next_token := (1 - new_token_count) / refill_rate
      let retry_after := pyInt (time_until_next_token + 1/2)
      let s := set_data s last_update_key (.num current_time) (some (window_seconds * 2))
      return ((false, max 1 retry_after), s)
  | _, _ =>
    let s := set_data s bucket_key (.num (capacity - 1)) (some (window_seconds * 2))
    let s := set_data s last_update_key (.num current_time) (some (window_seconds * 2))
    .ok ((true, 0), s)

end TokenBucketRateLimiter

/-- A write-observing backend: `get_data` answers from an arbitrary function
`g` (standing for any storage state), `set_data` appends the write to a log.
Used to state properties of exactly what the token bucket writes. -/
def logSet (s : List (String × PyVal × Option ℤ)) (key : String)
    (value : PyVal) (ttl : Option ℤ) : List (String × PyVal × Option ℤ) :=
  s ++ [(key, value, ttl)]

/-! ## `FixedWindowRateLimiter` (src/rate_limiter.py lines 207-224), the
jittered wrapper.  The `random.randint(0, jitter_seconds)` draw is passed in
explicitly; the wrapped strategy is an arbitrary function of
`(identifier, requests_limit, window_seconds)`. -/

namespace FixedWindowRateLimiter

/-- One call of `FixedWindowRateLimiter.check_rate_limit`: when
`jitter_seconds > 0` the random draw is added to `window_seconds`, then the
call is delegated to the wrapped strategy unchanged. -/
def check_rate_limit {α : Type} (jitter_seconds draw : ℤ)
    (storage : String → ℤ → ℤ → α)
    (identifier : String) (requests_limit window_seconds : ℤ) : α :=
  if jitter_seconds > 0 then
    storage identifier requests_limit (window_seconds + draw)
  else
    storage identifier requests_limit window_seconds

end FixedWindowRateLimiter

/-! ## the `rate_limit` decorator (src/rate_limiter.py lines 226-281) -/

/-- The fields of a FastAPI `Request` the library reads
(`request.client.host`, `request.url.path`). -/
structure ReqCtx : Type where
  host : String
  path : String
deriving DecidableEq, Repr

/-- An argument of the wrapped endpoint call: either a `Request` object or
anything else. -/
inductive PyArg : Type
  | request (r : ReqCtx)
  | other (n : ℤ)
deriving DecidableEq, Repr

/-- The check `isinstance(arg, Request)` as a partial projection. -/
def asRequest : PyArg → Option ReqCtx
  | .request r => some r
  | .other _ => none

/-- The wrapper's search for a `Request`: first positional argument that is a
`Request`, else first keyword argument value that is one (in insertion
order). -/
def findRequest (args : List PyArg) (kwargs : List (String × PyArg)) :
    Option ReqCtx :=
  match args.findSome? asRequest with
  | some r => some r
  | none => kwargs.findSome? (fun kv => asRequest kv.2)

/-- The observable outcome of one wrapped call: a `ValueError` (usage error),
an `HTTPException` with its status, detail and `Retry-After` header, or the
wrapped function's result. -/
inductive GateResult (α : Type) : Type
  | valueError (msg : String)
  | httpException (status_code : ℤ) (detail : String) (retryAfterHeader : String)
  | result (a : α)

/-- The default `identifier_func`: `request.client.host + request.url.path`. -/
def defaultIdentifier (r : ReqCtx) : String := r.host ++ r.path

/-- One invocation of the `wrapper` closure built by `rate_limit`:
find a `Request` among the call's arguments (else `ValueError`), extract the
identifier, consult the limiter, and either raise the 429 `HTTPException`
with `Retry-After` carrying the seconds as a string, or run the wrapped
function and return its result unchanged.  (`await` of the wrapped coroutine
is modelled as plain application.) -/
def rate_limit_wrapper {α : Type}
    (check : String → Bool × ℤ) (identifier_func : ReqCtx → String)
    (func : List PyArg → List (String × PyArg) → α)
    (args : List PyArg) (kwargs : List (String × PyArg)) : GateResult α :=
  match findRequest args kwargs with
  | none => .valueError "No FastAPI Request object found in arguments"
  | some request =>
    let decision := check (identifier_func request)
    if ¬decision.1 then
      .httpException 429
        ("Rate limit exceeded. Try again in " ++ toString decision.2 ++ " seconds.")
        (toString decision.2)
    else
      .result (func args kwargs)

/-! ## Helper lemmas -/

attribute [local semireducible] Rat.add Rat.sub Rat.mul Rat.inv

/-- The computable `Rat.floor` from Batteries is definitionally the `⌊·⌋` of Mathlib. -/
theorem ratFloor_eq_intFloor (q : ℚ) : q.floor = ⌊q⌋ := rfl

theorem pyInt_of_nonneg {q : ℚ} (h : 0 ≤ q) : pyInt q = ⌊q⌋ := by
  unfold pyInt
  rw [if_pos h, ratFloor_eq_intFloor]

theorem pyInt_nonneg {q : ℚ} (h : 0 ≤ q) : 0 ≤ pyInt q := by
  rw [pyInt_of_nonneg h]
  exact Int.floor_nonneg.mpr h

theorem pyInt_le_of_le {q : ℚ} {c : ℤ} (h0 : 0 ≤ q) (h : q ≤ (c : ℚ)) :
    pyInt q ≤ c := by
  rw [pyInt_of_nonneg h0]
  calc ⌊q⌋ ≤ ⌊(c : ℚ)⌋ := Int.floor_le_floor h
    _ = c := Int.floor_intCast c

namespace InMemoryRateLimiter

/-- A sequence of `check_rate_limit` calls at the given times, collecting the
decisions and threading the per-identifier record. -/
def run (requests_limit window_seconds : ℤ) :
    Option (ℤ × ℚ) → List ℚ → List (Bool × ℤ) × Option (ℤ × ℚ)
  | record, [] => ([], record)
  | record, t :: ts =>
    let step := check_rate_limit requests_limit window_seconds record t
    let rest := run requests_limit window_seconds (some step.2) ts
    (step.1 :: rest.1, rest.2)

/-- While the window has not expired and the count stays below the limit,
every call is allowed and only the count advances. -/
theorem run_under_limit (requests_limit window_seconds : ℤ) (t₁ : ℚ)
    (ts : List ℚ) (c : ℤ)
    (hts : ∀ t ∈ ts, t - t₁ ≤ (window_seconds : ℚ))
    (hc : c + (ts.length : ℤ) ≤ requests_limit) :
    run requests_limit window_seconds (some (c, t₁)) ts =
      (List.replicate ts.length (true, 0), some (c + (ts.length : ℤ), t₁)) := by
  induction ts generalizing c with
  | nil => simp [run]
  | cons t ts ih =>
    have h1 : ¬ (t - t₁ > (window_seconds : ℚ)) :=
      not_lt.mpr (hts t (List.mem_cons_self t ts))
    have h2 : ¬ (c ≥ requests_limit) := by
      simp only [List.length_cons] at hc
      push_cast at hc
      omega
    have hrec := ih (c + 1)
      (fun t ht => hts t (List.mem_cons_of_mem _ ht))
      (by simp only [List.length_cons] at hc; push_cast at hc ⊢; omega)
    simp only [run, check_rate_limit, if_neg h1, if_neg h2, hrec,
      List.length_cons, List.replicate_succ]
    push_cast
    ring_nf

end InMemoryRateLimiter

/-! ## The claims -/

namespace InMemoryRateLimiter

/-- Claim C1, amended: for the fixed-window counter with limit `L ≥ 1` and
window `W > 0`, starting from an unseen identifier, `L` consecutive calls
within the window all return `allowed = true`, and the `(L+1)`-th call within
the same window returns `allowed = false` with `retry_after_seconds` at least
`0` and at most `W`.  (The original claim's strict lower bound `retry > 0`
fails: see the counterexample.) -/
theorem monotonic_admission (requests_limit window_seconds : ℤ) (t₁ : ℚ)
    (ts : List ℚ) (t_deny : ℚ)
    (hL : 1 ≤ requests_limit) (_hW : 0 < window_seconds)
    (hlen : (ts.length : ℤ) = requests_limit - 1)
    (hts : ∀ t ∈ ts, t₁ ≤ t ∧ t - t₁ ≤ (window_seconds : ℚ))
    (hd₁ : t₁ ≤ t_deny) (hd₂ : t_deny - t₁ ≤ (window_seconds : ℚ)) :
    (run requests_limit window_seconds none (t₁ :: ts)).1 =
      List.replicate requests_limit.toNat (true, 0) ∧
    ∃ retry_after,
      check_rate_limit requests_limit window_seconds
          (run requests_limit window_seconds none (t₁ :: ts)).2 t_deny =
        ((false, retry_after), (requests_limit, t₁)) ∧
      0 ≤ retry_after ∧ retry_after ≤ window_seconds := by
  have hrun := run_under_limit requests_limit window_seconds t₁ ts 1
    (fun t ht => (hts t ht).2) (by omega)
  have hfirst : run requests_limit window_seconds none (t₁ :: ts) =
      ((true, 0) :: (run requests_limit window_seconds (some (1, t₁)) ts).1,
       (run requests_limit window_seconds (some (1, t₁)) ts).2) := rfl
  have hcount : 1 + (ts.length : ℤ) = requests_limit := by omega
  have hlenN : ts.length + 1 = requests_limit.toNat := by omega
  constructor
  · rw [hfirst, hrun]
    simp only [← hlenN, List.replicate_succ]
  · have hstate : (run requests_limit window_seconds none (t₁ :: ts)).2 =
        some (requests_limit, t₁) := by
      rw [hfirst, hrun]
      simp only [hcount]
    have hnoexp : ¬ (t_deny - t₁ > (window_seconds : ℚ)) := not_lt.mpr hd₂
    have hq0 : 0 ≤ t₁ + (window_seconds : ℚ) - t_deny := by linarith
    have hqW : t₁ + (window_seconds : ℚ) - t_deny ≤ (window_seconds : ℚ) := by
      linarith
    refine ⟨pyInt (t₁ + (window_seconds : ℚ) - t_deny), ?_, pyInt_nonneg hq0,
      pyInt_le_of_le hq0 hqW⟩
    rw [hstate]
    simp [check_rate_limit, if_neg hnoexp]

/-- Claim C1, counterexample to the original statement: limit `1`, window `60`:
the first call (at time `0`) is allowed; the second call at time `60` is
still within the window (`60 - 0 ≤ 60`, and the code only resets when
`now - start > window`), yet it is denied with `retry_after_seconds = 0`,
contradicting the claimed strict bound `retry_after_seconds > 0`. -/
theorem monotonic_admission_counterexample :
    check_rate_limit 1 60 none 0 = ((true, 0), (1, 0)) ∧
    (60 : ℚ) - 0 ≤ ((60 : ℤ) : ℚ) ∧
    check_rate_limit 1 60 (some (1, 0)) 60 = ((false, 0), (1, 0)) ∧
    ¬ (0 : ℤ) > 0 := by decide

/-- Witness: `monotonic_admission` at limit 2, window 60, calls at times
0, 10 and the third call at time 30. -/
theorem monotonic_admission_witness :
    (run 2 60 none (0 :: [10])).1 = List.replicate (2 : ℤ).toNat (true, 0) ∧
    ∃ retry_after,
      check_rate_limit 2 60 (run 2 60 none (0 :: [10])).2 30 =
        ((false, retry_after), (2, 0)) ∧
      0 ≤ retry_after ∧ retry_after ≤ 60 :=
  monotonic_admission 2 60 0 [10] 30 (by decide) (by decide) (by decide)
    (by decide) (by decide) (by decide)

end InMemoryRateLimiter

/-- Appending distinct suffixes to the same string gives distinct strings. -/
theorem append_right_ne {s t : String} (a : String) (h : s ≠ t) :
    a ++ s ≠ a ++ t := by
  intro he
  apply h
  have hd := congrArg String.data he
  rw [String.data_append, String.data_append] at hd
  exact String.ext (List.append_cancel_left hd)

/-- The token bucket's two storage keys are distinct for every identifier. -/
theorem bucket_key_ne_last_update_key (identifier : String) :
    "bucket:" ++ identifier ≠ "last_update:" ++ identifier := by
  intro h
  have hl := congrArg String.length h
  rw [String.length_append, String.length_append] at hl
  have h7 : ("bucket:" : String).length = 7 := by decide
  have h12 : ("last_update:" : String).length = 12 := by decide
  omega

namespace RedisRateLimiter

theorem kvGet_kvSet_self (s : KVStore) (key : String) (value : ℚ) :
    kvGet (kvSet s key value) key = some value := by
  simp [kvGet, kvSet, List.find?]

theorem kvGet_kvSet_of_ne (s : KVStore) {key key' : String} (value : ℚ)
    (h : key' ≠ key) : kvGet (kvSet s key value) key' = kvGet s key' := by
  simp only [kvGet, kvSet, List.find?]
  have : (key == key') = false := by
    simp [beq_iff_eq]
    exact fun he => h he.symm
  rw [this]

end RedisRateLimiter

/-- Claim C5: window reset, for both fixed-window implementations: when the
stored record's `window_start` is more than `window_seconds` in the past, the
next call allows with retry `0` and replaces the record with count `1` and
`window_start = current check time`, whatever the prior count was (even
`count ≥ limit`). -/
theorem window_reset (requests_limit window_seconds count : ℤ)
    (start now : ℚ) (h : now - start > (window_seconds : ℚ)) :
    InMemoryRateLimiter.check_rate_limit requests_limit window_seconds
        (some (count, start)) now = ((true, 0), (1, now)) ∧
    ∀ (prefix_ identifier : String) (s : RedisRateLimiter.KVStore),
      RedisRateLimiter.kvGet s (prefix_ ++ identifier ++ ":count") = some (count : ℚ) →
      RedisRateLimiter.kvGet s (prefix_ ++ identifier ++ ":start") = some start →
      (RedisRateLimiter.check_rate_limit prefix_ identifier requests_limit
          window_seconds now s).1 = (true, 0) ∧
      RedisRateLimiter.kvGet (RedisRateLimiter.check_rate_limit prefix_ identifier
          requests_limit window_seconds now s).2 (prefix_ ++ identifier ++ ":count") =
        some 1 ∧
      RedisRateLimiter.kvGet (RedisRateLimiter.check_rate_limit prefix_ identifier
          requests_limit window_seconds now s).2 (prefix_ ++ identifier ++ ":start") =
        some now := by
  constructor
  · simp [InMemoryRateLimiter.check_rate_limit, if_pos h]
  · intro prefix_ identifier s hcount hstart
    have hkeys : prefix_ ++ identifier ++ ":count" ≠ prefix_ ++ identifier ++ ":start" := by
      exact append_right_ne (prefix_ ++ identifier) (by decide)
    have hred : RedisRateLimiter.check_rate_limit prefix_ identifier requests_limit
        window_seconds now s =
        ((true, 0), RedisRateLimiter.kvSet (RedisRateLimiter.kvSet s
            (prefix_ ++ identifier ++ ":count") 1)
          (prefix_ ++ identifier ++ ":start") now) := by
      simp only [RedisRateLimiter.check_rate_limit, hcount, hstart, if_pos h]
    rw [hred]
    refine ⟨rfl, ?_, ?_⟩
    · rw [RedisRateLimiter.kvGet_kvSet_of_ne _ _ hkeys,
        RedisRateLimiter.kvGet_kvSet_self]
    · rw [RedisRateLimiter.kvGet_kvSet_self]

/-- Witness: `window_reset` with limit 5, window 60, a stored record
`(count = 5, window_start = 0)` and a check at time 70 (expired window),
against both implementations. -/
theorem window_reset_witness :
    InMemoryRateLimiter.check_rate_limit 5 60 (some (5, 0)) 70 = ((true, 0), (1, 70)) ∧
    ((RedisRateLimiter.check_rate_limit "ratelimit:" "A" 5 60 70
        [("ratelimit:A:count", 5), ("ratelimit:A:start", 0)]).1 = (true, 0) ∧
      RedisRateLimiter.kvGet (RedisRateLimiter.check_rate_limit "ratelimit:" "A" 5 60 70
        [("ratelimit:A:count", 5), ("ratelimit:A:start", 0)]).2
        ("ratelimit:" ++ "A" ++ ":count") = some 1 ∧
      RedisRateLimiter.kvGet (RedisRateLimiter.check_rate_limit "ratelimit:" "A" 5 60 70
        [("ratelimit:A:count", 5), ("ratelimit:A:start", 0)]).2
        ("ratelimit:" ++ "A" ++ ":start") = some 70) := by
  have h := window_reset 5 60 5 0 70 (by decide)
  exact ⟨h.1, h.2 "ratelimit:" "A" _ (by decide) (by decide)⟩

/-- Claim C2, refuted by the code (the backends break the round-trip contract): at key `"k"`,
value `5`, ttl `10`: the in-memory backend's `get_data` returns the pair
`(value, ttl)` rather than the value, and the Redis backend's `get_data`
returns `None` even immediately after `set_data` (its body never returns the
fetched value).  The storage contract `get(key) -> value | absent` of the
spec is what `TokenBucketRateLimiter` relies on; both implementations
violate it. -/
theorem storage_roundtrip_failure :
    InMemoryRateLimiter.get_data
        (InMemoryRateLimiter.set_data [] "k" (PyVal.num 5) (some 10)) "k" =
      some (PyVal.tuple (PyVal.num 5) (some 10)) ∧
    some (PyVal.tuple (PyVal.num 5) (some 10)) ≠ some (PyVal.num 5) ∧
    RedisRateLimiter.get_data
        (RedisRateLimiter.set_data [] "k" (PyVal.num 5) (some 10)) "k" = none := by
  decide

namespace TokenBucketRateLimiter

/-- Reduction of the missing-record branch of the token bucket: when either
stored entry is absent, both entries are initialized (`capacity - 1` and
`now`, TTL `2 * window`) and the call allows. -/
theorem check_rate_limit_init {σ : Type} (get_data : σ → String → Option PyVal)
    (set_data : σ → String → PyVal → Option ℤ → σ) (bucket_capacity : Option ℚ)
    (identifier : String) (requests_limit window_seconds : ℤ)
    (current_time : ℚ) (s : σ) (hW : window_seconds ≠ 0)
    (hmiss : get_data s ("bucket:" ++ identifier) = none ∨
      get_data s ("last_update:" ++ identifier) = none) :
    check_rate_limit get_data set_data bucket_capacity identifier requests_limit
        window_seconds current_time s =
      .ok ((true, 0),
        set_data (set_data s ("bucket:" ++ identifier)
            (.num (pyOr bucket_capacity (requests_limit : ℚ) - 1))
            (some (window_seconds * 2)))
          ("last_update:" ++ identifier) (.num current_time)
          (some (window_seconds * 2))) := by
  simp only [check_rate_limit, if_neg hW]
  rcases hmiss with hm | hm
  · rw [hm]
  · rw [hm]
    cases get_data s ("bucket:" ++ identifier) <;> rfl

/-- Claim C4: a check for an identifier with no stored tokens or `last_update`
entry stores `tokens = capacity - 1` and `last_update = now`, both with TTL
`2 * window_seconds`, and allows; concretely, with `limit = 5`,
`window = 60` and no configured capacity, the first call is allowed and the
token value written is `4.0` (observed on the write-logging backend). -/
theorem first_seen_initializes {σ : Type} (get_data : σ → String → Option PyVal)
    (set_data : σ → String → PyVal → Option ℤ → σ) (bucket_capacity : Option ℚ)
    (identifier : String) (requests_limit window_seconds : ℤ)
    (current_time : ℚ) (s : σ) (hW : window_seconds ≠ 0)
    (hmiss : get_data s ("bucket:" ++ identifier) = none ∨
      get_data s ("last_update:" ++ identifier) = none) :
    check_rate_limit get_data set_data bucket_capacity identifier requests_limit
        window_seconds current_time s =
      .ok ((true, 0),
        set_data (set_data s ("bucket:" ++ identifier)
            (.num (pyOr bucket_capacity (requests_limit : ℚ) - 1))
            (some (window_seconds * 2)))
          ("last_update:" ++ identifier) (.num current_time)
          (some (window_seconds * 2))) ∧
    ∀ t : ℚ,
      check_rate_limit
          (fun (_ : List (String × PyVal × Option ℤ)) _ => (none : Option PyVal))
          logSet none "A" 5 60 t [] =
        .ok ((true, 0),
          [("bucket:A", PyVal.num 4, some 120),
           ("last_update:A", PyVal.num t, some 120)]) := by
  constructor
  · exact check_rate_limit_init get_data set_data bucket_capacity identifier
      requests_limit window_seconds current_time s hW hmiss
  · intro t
    rw [check_rate_limit_init
      (fun (_ : List (String × PyVal × Option ℤ)) _ => (none : Option PyVal))
      logSet none "A" 5 60 t [] (by decide) (Or.inl rfl)]
    norm_num [pyOr, logSet]
    exact ⟨by decide, by decide⟩

/-- Witness: `first_seen_initializes` on an empty backend, and the concrete
write log of the `limit = 5`, `window = 60` first call at time 9. -/
theorem first_seen_initializes_witness :
    check_rate_limit (fun (_ : Unit) _ => (none : Option PyVal))
        (fun u _ _ _ => u) none "B" 5 60 0 () = .ok ((true, 0), ()) ∧
    check_rate_limit
        (fun (_ : List (String × PyVal × Option ℤ)) _ => (none : Option PyVal))
        logSet none "A" 5 60 9 [] =
      .ok ((true, 0),
        [("bucket:A", PyVal.num 4, some 120),
         ("last_update:A", PyVal.num 9, some 120)]) := by
  have h := first_seen_initializes (fun (_ : Unit) _ => (none : Option PyVal))
    (fun u _ _ _ => u) none "B" 5 60 0 () (by decide) (Or.inl rfl)
  exact ⟨h.1, h.2 9⟩

/-- Claim C10: `RedisRateLimiter.get_data` returns `None` for every key and
every database state (also right after a `set_data`); consequently a token
bucket using `RedisRateLimiter` as its storage backend takes the
missing-record initialization path on every call and always allows. -/
theorem redis_always_allows (s : RedisRateLimiter.Database)
    (bucket_capacity : Option ℚ) (identifier : String)
    (requests_limit window_seconds : ℤ) (current_time : ℚ)
    (hW : window_seconds ≠ 0) :
    (∀ (s' : RedisRateLimiter.Database) (key : String),
      RedisRateLimiter.get_data s' key = none) ∧
    check_rate_limit RedisRateLimiter.get_data RedisRateLimiter.set_data
        bucket_capacity identifier requests_limit window_seconds current_time s =
      .ok ((true, 0),
        RedisRateLimiter.set_data (RedisRateLimiter.set_data s
            ("bucket:" ++ identifier)
            (.num (pyOr bucket_capacity (requests_limit : ℚ) - 1))
            (some (window_seconds * 2)))
          ("last_update:" ++ identifier) (.num current_time)
          (some (window_seconds * 2))) := by
  refine ⟨fun _ _ => rfl, ?_⟩
  exact check_rate_limit_init RedisRateLimiter.get_data RedisRateLimiter.set_data
    bucket_capacity identifier requests_limit window_seconds current_time s hW
    (Or.inl rfl)

/-- Witness: `redis_always_allows` on a database that already holds a bucket
entry for the identifier — the call still allows (the entry is invisible to
`get_data`). -/
theorem redis_always_allows_witness :
    RedisRateLimiter.get_data [("bucket:A", PyVal.num 0, some 120)] "bucket:A" = none ∧
    check_rate_limit RedisRateLimiter.get_data RedisRateLimiter.set_data
        none "A" 5 60 0 [("bucket:A", PyVal.num 0, some 120)] =
      .ok ((true, 0),
        RedisRateLimiter.set_data (RedisRateLimiter.set_data
            [("bucket:A", PyVal.num 0, some 120)] ("bucket:" ++ "A")
            (.num (pyOr none ((5 : ℤ) : ℚ) - 1)) (some (60 * 2)))
          ("last_update:" ++ "A") (.num 0) (some (60 * 2))) := by
  have h := redis_always_allows [("bucket:A", PyVal.num 0, some 120)] none "A" 5 60 0
    (by decide)
  exact ⟨h.1 _ _, h.2⟩

/-- Reduction of the loaded-record path of the token bucket: both entries
present and numeric. -/
theorem check_rate_limit_loaded {σ : Type} (get_data : σ → String → Option PyVal)
    (set_data : σ → String → PyVal → Option ℤ → σ) (bucket_capacity : Option ℚ)
    (identifier : String) (requests_limit window_seconds : ℤ)
    (current_time : ℚ) (s : σ) (tokens_val last_val : PyVal)
    (current_tokens last_update : ℚ) (hW : window_seconds ≠ 0)
    (hbk : get_data s ("bucket:" ++ identifier) = some tokens_val)
    (hlk : get_data s ("last_update:" ++ identifier) = some last_val)
    (htv : pyNum tokens_val = .ok current_tokens)
    (hlv : pyNum last_val = .ok last_update) :
    check_rate_limit get_data set_data bucket_capacity identifier requests_limit
        window_seconds current_time s =
      (if 1 ≤ min (current_tokens + (current_time - last_update) *
            ((requests_limit : ℚ) / (window_seconds : ℚ)))
          (pyOr bucket_capacity (requests_limit : ℚ)) then
        .ok ((true, 0),
          set_data (set_data s ("bucket:" ++ identifier)
              (.num (min (current_tokens + (current_time - last_update) *
                  ((requests_limit : ℚ) / (window_seconds : ℚ)))
                (pyOr bucket_capacity (requests_limit : ℚ)) - 1))
              (some (window_seconds * 2)))
            ("last_update:" ++ identifier) (.num current_time)
            (some (window_seconds * 2)))
      else if (requests_limit : ℚ) / (window_seconds : ℚ) = 0 then
        .error .zeroDivision
      else
        .ok ((false, max 1 (pyInt ((1 - min (current_tokens +
              (current_time - last_update) *
              ((requests_limit : ℚ) / (window_seconds : ℚ)))
            (pyOr bucket_capacity (requests_limit : ℚ))) /
            ((requests_limit : ℚ) / (window_seconds : ℚ)) + 1/2))),
          set_data s ("last_update:" ++ identifier) (.num current_time)
            (some (window_seconds * 2)))) := by
  simp only [check_rate_limit, if_neg hW, hbk, hlk, htv, hlv]
  rfl

/-- Claim C3: whenever the recomputed token count
`new_tokens = min(stored + elapsed * refill_rate, capacity)` is below 1, the
token bucket denies with
`retry_after = max 1 (int((1 - new_tokens) / refill_rate + 0.5))` and
persists exactly one entry: `last_update = now`.  The resulting backend state
is a single `set_data` of the `last_update` key applied to the prior state —
the bucket (token-count) entry is not written. -/
theorem deny_persists_only_last_update {σ : Type}
    (get_data : σ → String → Option PyVal)
    (set_data : σ → String → PyVal → Option ℤ → σ) (bucket_capacity : Option ℚ)
    (identifier : String) (requests_limit window_seconds : ℤ)
    (current_time : ℚ) (s : σ) (tokens_val last_val : PyVal)
    (current_tokens last_update : ℚ)
    (refill_rate capacity new_tokens : ℚ)
    (hW : window_seconds ≠ 0) (hL : requests_limit ≠ 0)
    (hrate : refill_rate = (requests_limit : ℚ) / (window_seconds : ℚ))
    (hcapacity : capacity = pyOr bucket_capacity (requests_limit : ℚ))
    (hbk : get_data s ("bucket:" ++ identifier) = some tokens_val)
    (hlk : get_data s ("last_update:" ++ identifier) = some last_val)
    (htv : pyNum tokens_val = .ok current_tokens)
    (hlv : pyNum last_val = .ok last_update)
    (hnew : new_tokens =
      min (current_tokens + (current_time - last_update) * refill_rate) capacity)
    (hdeny : new_tokens < 1) :
    check_rate_limit get_data set_data bucket_capacity identifier requests_limit
        window_seconds current_time s =
      .ok ((false, max 1 (pyInt ((1 - new_tokens) / refill_rate + 1/2))),
        set_data s ("last_update:" ++ identifier) (.num current_time)
          (some (window_seconds * 2))) := by
  subst hrate hcapacity hnew
  rw [check_rate_limit_loaded get_data set_data bucket_capacity identifier
    requests_limit window_seconds current_time s tokens_val last_val
    current_tokens last_update hW hbk hlk htv hlv]
  have hrate0 : (requests_limit : ℚ) / (window_seconds : ℚ) ≠ 0 :=
    div_ne_zero (Int.cast_ne_zero.mpr hL) (Int.cast_ne_zero.mpr hW)
  rw [if_neg (not_le.mpr hdeny), if_neg hrate0]

/-- Witness: `deny_persists_only_last_update` at the spec's scenario 4 —
`tokens = 0.5`, `last_update = now - 1`, `limit = 5`, `window = 60`:
denied, `retry_after = 5`, and only `last_update` is written. -/
theorem deny_persists_only_last_update_witness :
    check_rate_limit
        (fun (_ : Unit) k => if k == "bucket:c" then some (PyVal.num (1/2))
          else if k == "last_update:c" then some (PyVal.num 99) else none)
        (fun u _ _ _ => u) none "c" 5 60 100 () = .ok ((false, 5), ()) := by
  rw [deny_persists_only_last_update
    (fun (_ : Unit) k => if k == "bucket:c" then some (PyVal.num (1/2))
      else if k == "last_update:c" then some (PyVal.num 99) else none)
    (fun u _ _ _ => u) none "c" 5 60 100 () (PyVal.num (1/2)) (PyVal.num 99)
    (1/2) 99 (1/12) 5 (7/12) (by decide) (by decide) (by decide) (by decide)
    (by decide) (by decide) (by decide) (by decide) (by decide) (by decide)]
  decide

/-- Reduction of the loaded-record path when a read-back value is a tuple:
the refill arithmetic raises `TypeError` before any write. -/
theorem check_rate_limit_tuple_error {σ : Type}
    (get_data : σ → String → Option PyVal)
    (set_data : σ → String → PyVal → Option ℤ → σ) (bucket_capacity : Option ℚ)
    (identifier : String) (requests_limit window_seconds : ℤ)
    (current_time : ℚ) (s : σ) (v₁ v₂ : PyVal) (t₁ t₂ : Option ℤ)
    (hW : window_seconds ≠ 0)
    (hbk : get_data s ("bucket:" ++ identifier) = some (PyVal.tuple v₁ t₁))
    (hlk : get_data s ("last_update:" ++ identifier) = some (PyVal.tuple v₂ t₂)) :
    check_rate_limit get_data set_data bucket_capacity identifier requests_limit
        window_seconds current_time s = .error .typeError := by
  simp only [check_rate_limit, if_neg hW, hbk, hlk]
  rfl

/-- Claim C7: with effective capacity `C ≥ 1`, every token value the limiter
writes to the bucket entry lies in `[0, C]`, whatever values the storage
returns for the two reads (hence for every sequence of calls and every
elapsed time): on the write-logging backend with arbitrary read results `g`,
every logged write to the bucket key is a number in `[0, C]`. -/
theorem token_writes_bounded (g : String → Option PyVal)
    (bucket_capacity : Option ℚ) (identifier : String)
    (requests_limit window_seconds : ℤ) (current_time : ℚ)
    (hcap : 1 ≤ pyOr bucket_capacity (requests_limit : ℚ)) :
    ∀ (decision : Bool × ℤ) (log : List (String × PyVal × Option ℤ)),
      check_rate_limit (fun _ k => g k) logSet bucket_capacity identifier
          requests_limit window_seconds current_time [] = .ok (decision, log) →
      ∀ e ∈ log, e.1 = "bucket:" ++ identifier →
        ∃ v, e.2.1 = PyVal.num v ∧ 0 ≤ v ∧
          v ≤ pyOr bucket_capacity (requests_limit : ℚ) := by
  intro decision log hrun e he hekey
  by_cases hW : window_seconds = 0
  · rw [check_rate_limit, if_pos hW] at hrun
    exact absurd hrun (by simp)
  have hlast_ne : ("last_update:" ++ identifier, (PyVal.num current_time :),
      (some (window_seconds * 2) :)).1 ≠ "bucket:" ++ identifier :=
    fun h => bucket_key_ne_last_update_key identifier h.symm
  rcases hbk : g ("bucket:" ++ identifier) with _ | tv
  · -- missing bucket entry: initialization path
    rw [check_rate_limit_init (fun _ k => g k) logSet bucket_capacity identifier
      requests_limit window_seconds current_time [] hW (Or.inl hbk)] at hrun
    injection hrun with hpair
    injection hpair with hdec hlog
    subst hlog
    simp only [logSet, List.nil_append, List.cons_append, List.nil_append,
      List.mem_cons, List.not_mem_nil, or_false] at he
    rcases he with he | he
    · subst he
      exact ⟨pyOr bucket_capacity (requests_limit : ℚ) - 1, rfl, by linarith,
        by linarith⟩
    · subst he
      exact absurd hekey (fun h => bucket_key_ne_last_update_key identifier h.symm)
  rcases hlk : g ("last_update:" ++ identifier) with _ | lv
  · -- missing last_update entry: initialization path
    rw [check_rate_limit_init (fun _ k => g k) logSet bucket_capacity identifier
      requests_limit window_seconds current_time [] hW (Or.inr hlk)] at hrun
    injection hrun with hpair
    injection hpair with hdec hlog
    subst hlog
    simp only [logSet, List.nil_append, List.cons_append, List.nil_append,
      List.mem_cons, List.not_mem_nil, or_false] at he
    rcases he with he | he
    · subst he
      exact ⟨pyOr bucket_capacity (requests_limit : ℚ) - 1, rfl, by linarith,
        by linarith⟩
    · subst he
      exact absurd hekey (fun h => bucket_key_ne_last_update_key identifier h.symm)
  -- both entries present
  rcases htv : pyNum tv with e₁ | current_tokens
  · rw [check_rate_limit, if_neg hW] at hrun
    simp only [hbk, hlk, htv] at hrun
    exact absurd hrun (by simp [Bind.bind, Except.bind])
  rcases hlv : pyNum lv with e₂ | last_update
  · rw [check_rate_limit, if_neg hW] at hrun
    simp only [hbk, hlk, htv, hlv] at hrun
    exact absurd hrun (by simp [Bind.bind, Except.bind])
  rw [check_rate_limit_loaded (fun _ k => g k) logSet bucket_capacity identifier
    requests_limit window_seconds current_time [] tv lv current_tokens
    last_update hW hbk hlk htv hlv] at hrun
  set new_tokens := min (current_tokens + (current_time - last_update) *
      ((requests_limit : ℚ) / (window_seconds : ℚ)))
    (pyOr bucket_capacity (requests_limit : ℚ)) with hnt
  by_cases hge : 1 ≤ new_tokens
  · rw [if_pos hge] at hrun
    injection hrun with hpair
    injection hpair with hdec hlog
    subst hlog
    simp only [logSet, List.nil_append, List.cons_append, List.nil_append,
      List.mem_cons, List.not_mem_nil, or_false] at he
    rcases he with he | he
    · subst he
      have hle : new_tokens ≤ pyOr bucket_capacity (requests_limit : ℚ) :=
        min_le_right _ _
      exact ⟨new_tokens - 1, rfl, by linarith, by linarith⟩
    · subst he
      exact absurd hekey (fun h => bucket_key_ne_last_update_key identifier h.symm)
  · rw [if_neg hge] at hrun
    by_cases hr : (requests_limit : ℚ) / (window_seconds : ℚ) = 0
    · rw [if_pos hr] at hrun
      exact absurd hrun (by simp)
    rw [if_neg hr] at hrun
    injection hrun with hpair
    injection hpair with hdec hlog
    subst hlog
    simp only [logSet, List.nil_append, List.mem_cons, List.not_mem_nil,
      or_false] at he
    subst he
    exact absurd hekey (fun h => bucket_key_ne_last_update_key identifier h.symm)

/-- Witness: `token_writes_bounded` with `limit = 5`, `window = 60`, an
empty storage: the init write of `4` to the bucket key is in `[0, 5]`. -/
theorem token_writes_bounded_witness :
    ∃ v, (PyVal.num 4 : PyVal) = PyVal.num v ∧ 0 ≤ v ∧
      v ≤ pyOr none ((5 : ℤ) : ℚ) :=
  token_writes_bounded (fun _ => none) none "A" 5 60 9 (by decide) (true, 0)
    [("bucket:A", PyVal.num 4, some 120), ("last_update:A", PyVal.num 9, some 120)]
    (by decide) ("bucket:A", PyVal.num 4, some 120) (by decide) (by decide)

/-- Claim C9: the default in-process backend stores the pair `(value, ttl)`
under the key, so a token-bucket check for an identifier already seen reads
back tuples and its refill arithmetic raises `TypeError`: for every state in
which both entries were produced by `InMemoryRateLimiter.set_data`, the call
errors rather than returning an admission decision. -/
theorem inmemory_second_call_raises :
    (∀ (s : InMemoryRateLimiter.DataStore) (key : String) (value : PyVal)
        (ttl : Option ℤ),
      InMemoryRateLimiter.get_data (InMemoryRateLimiter.set_data s key value ttl)
        key = some (PyVal.tuple value ttl)) ∧
    (∀ (bucket_capacity : Option ℚ) (s : InMemoryRateLimiter.DataStore)
        (identifier : String) (requests_limit window_seconds : ℤ)
        (current_time : ℚ) (v₁ v₂ : PyVal) (t₁ t₂ : Option ℤ),
      window_seconds ≠ 0 →
      InMemoryRateLimiter.get_data s ("bucket:" ++ identifier) =
        some (PyVal.tuple v₁ t₁) →
      InMemoryRateLimiter.get_data s ("last_update:" ++ identifier) =
        some (PyVal.tuple v₂ t₂) →
      check_rate_limit InMemoryRateLimiter.get_data InMemoryRateLimiter.set_data
        bucket_capacity identifier requests_limit window_seconds current_time s =
        .error .typeError) := by
  constructor
  · intro s key value ttl
    simp [InMemoryRateLimiter.get_data, InMemoryRateLimiter.set_data, List.find?]
  · intro bucket_capacity s identifier requests_limit window_seconds current_time
      v₁ v₂ t₁ t₂ hW hbk hlk
    exact check_rate_limit_tuple_error InMemoryRateLimiter.get_data
      InMemoryRateLimiter.set_data bucket_capacity identifier requests_limit
      window_seconds current_time s v₁ v₂ t₁ t₂ hW hbk hlk

/-- Witness: with the default in-process backend, the first call for `"A"`
succeeds and leaves tuple-valued entries; the second call raises. -/
theorem inmemory_second_call_raises_witness :
    check_rate_limit InMemoryRateLimiter.get_data InMemoryRateLimiter.set_data
        none "A" 5 60 0 [] =
      .ok ((true, 0),
        [("last_update:A", PyVal.tuple (PyVal.num 0) (some 120)),
         ("bucket:A", PyVal.tuple (PyVal.num 4) (some 120))]) ∧
    check_rate_limit InMemoryRateLimiter.get_data InMemoryRateLimiter.set_data
        none "A" 5 60 10
        [("last_update:A", PyVal.tuple (PyVal.num 0) (some 120)),
         ("bucket:A", PyVal.tuple (PyVal.num 4) (some 120))] =
      .error .typeError := by
  constructor
  · decide
  · exact inmemory_second_call_raises.2 none _ "A" 5 60 10 (PyVal.num 4)
      (PyVal.num 0) (some 120) (some 120) (by decide) (by decide) (by decide)

end TokenBucketRateLimiter

/-- Claim C6: the jittered wrapper delegates to the wrapped strategy with
`identifier` and `requests_limit` unchanged and a window in
`[window, window + J]` (equal to `window` when `J ≤ 0`, since the draw is
only added when `jitter_seconds > 0`), returning the strategy's result
unchanged; with `J = 5` and draw `3` the strategy receives `window + 3`
(so `63` for a configured window of `60`). -/
theorem jitter_bounds_delegation {α : Type} (jitter_seconds draw : ℤ)
    (storage : String → ℤ → ℤ → α) (identifier : String)
    (requests_limit window_seconds : ℤ)
    (hdraw : 0 < jitter_seconds → 0 ≤ draw ∧ draw ≤ jitter_seconds) :
    ∃ w,
      FixedWindowRateLimiter.check_rate_limit jitter_seconds draw storage
          identifier requests_limit window_seconds =
        storage identifier requests_limit w ∧
      window_seconds ≤ w ∧ w ≤ window_seconds + max jitter_seconds 0 ∧
      (jitter_seconds ≤ 0 → w = window_seconds) ∧
      (jitter_seconds = 5 → draw = 3 → w = window_seconds + 3) := by
  by_cases hj : jitter_seconds > 0
  · obtain ⟨hd0, hdJ⟩ := hdraw hj
    refine ⟨window_seconds + draw, ?_, by omega, ?_, by omega, by omega⟩
    · simp [FixedWindowRateLimiter.check_rate_limit, if_pos hj]
    · have : max jitter_seconds 0 = jitter_seconds := max_eq_left (le_of_lt hj)
      omega
  · refine ⟨window_seconds, ?_, le_refl _, by omega, fun _ => rfl, by omega⟩
    simp [FixedWindowRateLimiter.check_rate_limit, if_neg hj]

/-- Witness: `jitter_bounds_delegation` with `J = 5`, draw `3`, configured
window `60`, over a strategy that reports its arguments: it is invoked with
window `63` and the result comes back unchanged. -/
theorem jitter_bounds_delegation_witness :
    ∃ w,
      FixedWindowRateLimiter.check_rate_limit 5 3
          (fun i l w => (i, l, w)) "x" 5 60 = ("x", 5, w) ∧
      (60 : ℤ) ≤ w ∧ w ≤ 60 + max 5 0 ∧
      ((5 : ℤ) ≤ 0 → w = 60) ∧
      ((5 : ℤ) = 5 → (3 : ℤ) = 3 → w = 60 + 3) :=
  jitter_bounds_delegation 5 3 (fun i l w => (i, l, w)) "x" 5 60 (by decide)

/-- Claim C8: the `rate_limit` wrapper distinguishes three outcomes: no
`Request` found among positional or keyword arguments raises `ValueError`
(a usage error, a different outcome than any `HTTPException`); a limiter
deny raises `HTTPException` with status 429 and a `Retry-After` header
holding `str(retry_after)`; otherwise the wrapped function runs and its
result is returned unchanged. -/
theorem rate_limit_three_outcomes {α : Type} (check : String → Bool × ℤ)
    (identifier_func : ReqCtx → String)
    (func : List PyArg → List (String × PyArg) → α)
    (args : List PyArg) (kwargs : List (String × PyArg)) :
    (findRequest args kwargs = none →
      rate_limit_wrapper check identifier_func func args kwargs =
        .valueError "No FastAPI Request object found in arguments") ∧
    (∀ request, findRequest args kwargs = some request →
      (check (identifier_func request)).1 = false →
      rate_limit_wrapper check identifier_func func args kwargs =
        .httpException 429
          ("Rate limit exceeded. Try again in " ++
            toString (check (identifier_func request)).2 ++ " seconds.")
          (toString (check (identifier_func request)).2)) ∧
    (∀ request, findRequest args kwargs = some request →
      (check (identifier_func request)).1 = true →
      rate_limit_wrapper check identifier_func func args kwargs =
        .result (func args kwargs)) ∧
    (∀ (msg detail header : String) (status : ℤ),
      GateResult.valueError (α := α) msg ≠
        GateResult.httpException status detail header) := by
  refine ⟨?_, ?_, ?_, ?_⟩
  · intro hnone
    simp [rate_limit_wrapper, hnone]
  · intro request hfound hdeny
    simp [rate_limit_wrapper, hfound, hdeny]
  · intro request hfound hallow
    simp [rate_limit_wrapper, hfound, hallow]
  · intro msg detail header status h
    exact GateResult.noConfusion h

/-- Witness: `rate_limit_three_outcomes` on a call whose second positional
argument is the request `{host := "127.0.0.1", path := "/test"}` and whose
limiter denies with `retry_after = 30`: a 429 with `Retry-After: "30"`. -/
theorem rate_limit_three_outcomes_witness :
    rate_limit_wrapper (fun _ => (false, 30)) defaultIdentifier
        (fun _ _ => (7 : ℤ))
        [PyArg.other 1, PyArg.request ⟨"127.0.0.1", "/test"⟩] [] =
      .httpException 429 "Rate limit exceeded. Try again in 30 seconds." "30" := by
  have h := (rate_limit_three_outcomes (fun _ => (false, 30)) defaultIdentifier
    (fun _ _ => (7 : ℤ))
    [PyArg.other 1, PyArg.request ⟨"127.0.0.1", "/test"⟩] []).2.1
    ⟨"127.0.0.1", "/test"⟩ rfl rfl
  exact h

end FastLimiter
